import Mathlib

/-!
Shallow embedding of the react-cosmic (React Orbit) synchronization core.

The definitions below are translated from the TypeScript sources:
  * the minimal text diff of the useOrbitText hook (src/react/useOrbitText.ts),
  * the OrbitStore coordinator (src/core/store.ts): constructor wiring,
    init, debounced persistence, persist, dispose, and the WebSocket
    circuit-breaker handlers,
  * the TabSync broadcast component (src/sync/tab-sync.ts),
  * the useOrbitStatus snapshot (src/react/collaboration/useOrbitStatus.ts).

Text is modelled as a list of characters; Yjs binary updates are modelled
as abstract update tokens (natural numbers); the Yjs document is modelled
as the list of updates merged into it, with encodeStateAsUpdate the
identity on that abstract state.
-/

namespace ReactOrbit

/-! ## Minimal text diff (useOrbitText.setOrbitText) -/

/-- A single positional edit issued against the Yjs text inside the
transaction of setOrbitText: ytext.delete(pos, count) or
ytext.insert(pos, str). -/
inductive TextOp where
  | delete (pos count : Nat)
  | insert (pos : Nat) (str : List Char)
deriving DecidableEq, Repr

/-- The common-prefix scan of setOrbitText (src/react/useOrbitText.ts):
starting at index 0, advance while both strings still have a character at
the current index and the two characters agree.  Structural form of the
while loop; the result is the final value of the commonPrefix counter. -/
def commonPrefixLen : List Char → List Char → Nat
  | a :: as, b :: bs => if a = b then commonPrefixLen as bs + 1 else 0
  | _, _ => 0

/-- The common-suffix scan of setOrbitText, expressed on the reversed
strings: the counter advances while it is below oldText.length -
commonPrefix (first bound), below newText.length - commonPrefix (second
bound), and the characters at distance s from the two ends agree
(oldText[oldText.length - 1 - s] is the head of the reversed remainder). -/
def commonSuffixScan : Nat → Nat → List Char → List Char → Nat
  | bo + 1, bn + 1, a :: as, b :: bs =>
      if a = b then commonSuffixScan bo bn as bs + 1 else 0
  | _, _, _, _ => 0

/-- Common-suffix length used by setOrbitText, excluding overlap with the
already-matched prefix of length p. -/
def commonSuffixLen (oldT newT : List Char) (p : Nat) : Nat :=
  commonSuffixScan (oldT.length - p) (newT.length - p) oldT.reverse newT.reverse

/-- The operations issued by setOrbitText (src/react/useOrbitText.ts,
the transact block): nothing when the strings are equal; otherwise a
delete of oldText.length - commonPrefix - commonSuffix characters at
commonPrefix when commonPrefix + commonSuffix < oldText.length, followed
by an insert at commonPrefix of newText.slice(commonPrefix,
newText.length - commonSuffix) when commonPrefix + commonSuffix <
newText.length. -/
def setOrbitTextOps (oldT newT : List Char) : List TextOp :=
  if oldT = newT then []
  else
    let p := commonPrefixLen oldT newT
    let s := commonSuffixLen oldT newT p
    (if p + s < oldT.length then [TextOp.delete p (oldT.length - p - s)] else []) ++
    (if p + s < newT.length then
      [TextOp.insert p ((newT.take (newT.length - s)).drop p)] else [])

/-- Semantics of Y.Text.delete(pos, count): remove count characters
starting at index pos. -/
def ytextDelete (l : List Char) (pos count : Nat) : List Char :=
  l.take pos ++ l.drop (pos + count)

/-- Semantics of Y.Text.insert(pos, str): splice str in at index pos. -/
def ytextInsert (l : List Char) (pos : Nat) (str : List Char) : List Char :=
  l.take pos ++ str ++ l.drop pos

/-- Apply one text operation. -/
def applyTextOp (l : List Char) : TextOp → List Char
  | TextOp.delete pos count => ytextDelete l pos count
  | TextOp.insert pos str => ytextInsert l pos str

/-- Apply a sequence of text operations in order (the atomic transaction). -/
def applyTextOps (l : List Char) (ops : List TextOp) : List Char :=
  ops.foldl applyTextOp l

/-- p is the length of the longest common prefix of the two strings. -/
def IsLongestCommonPrefixLen (o n : List Char) (p : Nat) : Prop :=
  p ≤ o.length ∧ p ≤ n.length ∧ o.take p = n.take p ∧
    ∀ k, k ≤ o.length → k ≤ n.length → o.take k = n.take k → k ≤ p

/-- s is the length of the longest common suffix of the two strings among
suffix lengths that do not overlap the already-matched prefix of length
p. -/
def IsLongestCommonSuffixLenFrom (o n : List Char) (p s : Nat) : Prop :=
  s ≤ o.length - p ∧ s ≤ n.length - p ∧
    o.drop (o.length - s) = n.drop (n.length - s) ∧
    ∀ k, k ≤ o.length - p → k ≤ n.length - p →
      o.drop (o.length - k) = n.drop (n.length - k) → k ≤ s

theorem commonPrefixLen_le_left (o n : List Char) : commonPrefixLen o n ≤ o.length := by
  induction o generalizing n with
  | nil => cases n <;> simp [commonPrefixLen]
  | cons a as ih =>
    cases n with
    | nil => simp [commonPrefixLen]
    | cons b bs =>
      simp only [commonPrefixLen, List.length_cons]
      split
      · exact Nat.succ_le_succ (ih bs)
      · exact Nat.zero_le _

theorem commonPrefixLen_le_right (o n : List Char) : commonPrefixLen o n ≤ n.length := by
  induction o generalizing n with
  | nil => cases n <;> simp [commonPrefixLen]
  | cons a as ih =>
    cases n with
    | nil => simp [commonPrefixLen]
    | cons b bs =>
      simp only [commonPrefixLen, List.length_cons]
      split
      · exact Nat.succ_le_succ (ih bs)
      · exact Nat.zero_le _

theorem take_commonPrefixLen_eq (o n : List Char) :
    o.take (commonPrefixLen o n) = n.take (commonPrefixLen o n) := by
  induction o generalizing n with
  | nil => cases n <;> simp [commonPrefixLen]
  | cons a as ih =>
    cases n with
    | nil => simp [commonPrefixLen]
    | cons b bs =>
      simp only [commonPrefixLen]
      split
      · rename_i hab
        simp [List.take_succ_cons, hab, ih bs]
      · simp

theorem commonPrefixLen_longest (o n : List Char) (k : Nat)
    (hko : k ≤ o.length) (hkn : k ≤ n.length) (h : o.take k = n.take k) :
    k ≤ commonPrefixLen o n := by
  induction o generalizing n k with
  | nil => simp at hko; omega
  | cons a as ih =>
    cases n with
    | nil => simp at hkn; omega
    | cons b bs =>
      cases k with
      | zero => exact Nat.zero_le _
      | succ k =>
        simp only [List.take_succ_cons, List.cons.injEq] at h
        simp only [commonPrefixLen, h.1, if_pos]
        exact Nat.succ_le_succ (ih bs k (by simpa using hko) (by simpa using hkn) h.2)
theorem commonSuffixScan_le_left (bo bn : Nat) (r1 r2 : List Char) :
    commonSuffixScan bo bn r1 r2 ≤ bo := by
  induction bo generalizing bn r1 r2 with
  | zero => cases bn <;> cases r1 <;> cases r2 <;> simp [commonSuffixScan]
  | succ bo ih =>
    cases bn <;> cases r1 <;> cases r2 <;> simp [commonSuffixScan]
    split
    · exact Nat.succ_le_succ (ih _ _ _)
    · exact Nat.zero_le _

theorem commonSuffixScan_le_right (bo bn : Nat) (r1 r2 : List Char) :
    commonSuffixScan bo bn r1 r2 ≤ bn := by
  induction bo generalizing bn r1 r2 with
  | zero => cases bn <;> cases r1 <;> cases r2 <;> simp [commonSuffixScan]
  | succ bo ih =>
    cases bn <;> cases r1 <;> cases r2 <;> simp [commonSuffixScan]
    split
    · exact Nat.succ_le_succ (ih _ _ _)
    · exact Nat.zero_le _

theorem take_commonSuffixScan_eq (bo bn : Nat) (r1 r2 : List Char) :
    r1.take (commonSuffixScan bo bn r1 r2) = r2.take (commonSuffixScan bo bn r1 r2) := by
  induction bo generalizing bn r1 r2 with
  | zero => cases bn <;> cases r1 <;> cases r2 <;> simp [commonSuffixScan]
  | succ bo ih =>
    cases bn <;> cases r1 <;> cases r2 <;> simp [commonSuffixScan]
    rename_i a as b bs
    split
    · rename_i hab
      simp [List.take_succ_cons, hab, ih _ as bs]
    · simp

theorem commonSuffixScan_longest (bo bn : Nat) (r1 r2 : List Char) (k : Nat)
    (hk1 : k ≤ bo) (hk2 : k ≤ bn) (hl1 : k ≤ r1.length) (hl2 : k ≤ r2.length)
    (h : r1.take k = r2.take k) : k ≤ commonSuffixScan bo bn r1 r2 := by
  induction bo generalizing bn r1 r2 k with
  | zero => omega
  | succ bo ih =>
    cases k with
    | zero => exact Nat.zero_le _
    | succ k =>
      cases bn with
      | zero => omega
      | succ bn =>
        cases r1 with
        | nil => simp at hl1
        | cons a as =>
          cases r2 with
          | nil => simp at hl2
          | cons b bs =>
            simp only [List.take_succ_cons, List.cons.injEq] at h
            simp only [commonSuffixScan, h.1, if_pos]
            exact Nat.succ_le_succ
              (ih bn as bs k (by omega) (by omega) (by simpa using hl1)
                (by simpa using hl2) h.2)

/-- Dropping all but the last t characters is taking t characters of the
reversal, reversed. -/
theorem drop_length_sub_eq_reverse_take (l : List Char) (t : Nat) :
    l.drop (l.length - t) = (l.reverse.take t).reverse := by
  rw [List.reverse_take, List.reverse_reverse, List.length_reverse]

theorem commonSuffixLen_le_left (oldT newT : List Char) (p : Nat) :
    commonSuffixLen oldT newT p ≤ oldT.length - p :=
  commonSuffixScan_le_left _ _ _ _

theorem commonSuffixLen_le_right (oldT newT : List Char) (p : Nat) :
    commonSuffixLen oldT newT p ≤ newT.length - p :=
  commonSuffixScan_le_right _ _ _ _

theorem drop_commonSuffixLen_eq (oldT newT : List Char) (p : Nat) :
    oldT.drop (oldT.length - commonSuffixLen oldT newT p) =
      newT.drop (newT.length - commonSuffixLen oldT newT p) := by
  rw [drop_length_sub_eq_reverse_take, drop_length_sub_eq_reverse_take]
  exact congrArg List.reverse (take_commonSuffixScan_eq _ _ _ _)

theorem commonSuffixLen_longest (oldT newT : List Char) (p k : Nat)
    (hk1 : k ≤ oldT.length - p) (hk2 : k ≤ newT.length - p)
    (h : oldT.drop (oldT.length - k) = newT.drop (newT.length - k)) :
    k ≤ commonSuffixLen oldT newT p := by
  rw [drop_length_sub_eq_reverse_take, drop_length_sub_eq_reverse_take] at h
  exact commonSuffixScan_longest _ _ _ _ k hk1 hk2
    (by simp; omega) (by simp; omega) (List.reverse_inj.mp h)

/-- Reassembling a string from its prefix, its middle slice and its
suffix. -/
theorem mid_assembly (newT : List Char) (p s : Nat) (hps : p + s ≤ newT.length) :
    newT.take p ++ (newT.take (newT.length - s)).drop p ++
      newT.drop (newT.length - s) = newT := by
  have h1 : p ≤ newT.length - s := by omega
  have h2 : newT.take p = (newT.take (newT.length - s)).take p := by
    rw [List.take_take, Nat.min_eq_left h1]
  rw [h2, List.take_append_drop, List.take_append_drop]

/-- Running the operations of setOrbitText on the old text yields exactly
the new text. -/
theorem applyTextOps_setOrbitTextOps (oldT newT : List Char) :
    applyTextOps oldT (setOrbitTextOps oldT newT) = newT := by
  by_cases heq : oldT = newT
  · simp [setOrbitTextOps, heq, applyTextOps]
  · simp only [setOrbitTextOps, if_neg heq]
    set p := commonPrefixLen oldT newT with hpdef
    set s := commonSuffixLen oldT newT p with hsdef
    have hp1 : p ≤ oldT.length := commonPrefixLen_le_left _ _
    have hp2 : p ≤ newT.length := commonPrefixLen_le_right _ _
    have hs1 : s ≤ oldT.length - p := commonSuffixLen_le_left _ _ _
    have hs2 : s ≤ newT.length - p := commonSuffixLen_le_right _ _ _
    have htake : oldT.take p = newT.take p := take_commonPrefixLen_eq _ _
    have hdrop : oldT.drop (oldT.length - s) = newT.drop (newT.length - s) :=
      drop_commonSuffixLen_eq _ _ _
    have hlen : (oldT.take p).length = p := by
      simp [Nat.min_eq_left hp1]
    by_cases h1 : p + s < oldT.length <;> by_cases h2 : p + s < newT.length
    · -- delete and insert both issued
      simp only [if_pos h1, if_pos h2, applyTextOps, List.singleton_append,
        List.foldl_cons, List.foldl_nil, applyTextOp, ytextDelete, ytextInsert]
      have hidx : p + (oldT.length - p - s) = oldT.length - s := by omega
      rw [hidx]
      rw [List.take_append_of_le_length (by omega : p ≤ (oldT.take p).length)]
      rw [List.take_take, Nat.min_self]
      rw [show (oldT.take p ++ oldT.drop (oldT.length - s)).drop p =
            (oldT.take p ++ oldT.drop (oldT.length - s)).drop (oldT.take p).length by
          rw [hlen]]
      rw [List.drop_left]
      rw [htake, hdrop]
      exact mid_assembly newT p s (by omega)
    · -- delete only: the whole new text is prefix plus common suffix
      simp only [if_pos h1, if_neg h2, applyTextOps, List.append_nil, List.foldl_cons,
        List.foldl_nil, applyTextOp, ytextDelete]
      have hidx : p + (oldT.length - p - s) = oldT.length - s := by omega
      rw [hidx, htake, hdrop]
      have hpn : p = newT.length - s := by omega
      rw [hpn, List.take_append_drop]
    · -- insert only: the whole old text is prefix plus common suffix
      simp only [if_neg h1, if_pos h2, applyTextOps, List.nil_append, List.foldl_cons,
        List.foldl_nil, applyTextOp, ytextInsert]
      have hpo : p = oldT.length - s := by omega
      rw [show oldT.drop p = oldT.drop (oldT.length - s) by rw [← hpo]]
      rw [htake, hdrop]
      exact mid_assembly newT p s (by omega)
    · -- neither guard holds: the strings were equal after all
      exfalso
      apply heq
      have hpo : p = oldT.length - s := by omega
      have hpn : p = newT.length - s := by omega
      have e1 : oldT.drop p = newT.drop (newT.length - s) := by
        rw [show oldT.drop p = oldT.drop (oldT.length - s) by rw [← hpo], hdrop]
      calc oldT = oldT.take p ++ oldT.drop p := (List.take_append_drop _ _).symm
        _ = newT.take p ++ newT.drop (newT.length - s) := by rw [htake, e1]
        _ = newT := by rw [hpn, List.take_append_drop]

/-- The guards of the transact block, rephrased: an edit is issued exactly
when its character count is positive. -/
theorem setOrbitTextOps_shape (oldT newT : List Char) (hne : oldT ≠ newT) :
    setOrbitTextOps oldT newT =
      (if 0 < oldT.length -
          (commonPrefixLen oldT newT +
            commonSuffixLen oldT newT (commonPrefixLen oldT newT)) then
        [TextOp.delete (commonPrefixLen oldT newT)
          (oldT.length - commonPrefixLen oldT newT -
            commonSuffixLen oldT newT (commonPrefixLen oldT newT))]
      else []) ++
      (if 0 < newT.length -
          (commonPrefixLen oldT newT +
            commonSuffixLen oldT newT (commonPrefixLen oldT newT)) then
        [TextOp.insert (commonPrefixLen oldT newT)
          ((newT.take (newT.length -
            commonSuffixLen oldT newT (commonPrefixLen oldT newT))).drop
              (commonPrefixLen oldT newT))]
      else []) := by
  simp only [setOrbitTextOps, if_neg hne]
  have e1 : commonPrefixLen oldT newT +
      commonSuffixLen oldT newT (commonPrefixLen oldT newT) < oldT.length ↔
      0 < oldT.length - (commonPrefixLen oldT newT +
        commonSuffixLen oldT newT (commonPrefixLen oldT newT)) := by omega
  have e2 : commonPrefixLen oldT newT +
      commonSuffixLen oldT newT (commonPrefixLen oldT newT) < newT.length ↔
      0 < newT.length - (commonPrefixLen oldT newT +
        commonSuffixLen oldT newT (commonPrefixLen oldT newT)) := by omega
  exact congrArg₂ (· ++ ·) (if_congr e1 rfl rfl) (if_congr e2 rfl rfl)

/-- C1: setOrbitText performs no operation when oldText equals newText;
otherwise the computed p is the longest common prefix length and s the
longest common suffix length that does not overlap p, the two middle
region sizes are clamped so they never go negative (p + s never exceeds
either length, covering empty inputs), the transaction deletes
oldLength - p - s characters at position p exactly when that count is
positive and inserts the new middle substring at position p exactly when
its length is positive, and applying the delete-then-insert pair to
oldText yields exactly newText. -/
theorem setOrbitText_minimal_diff (oldT newT : List Char) :
    (oldT = newT → setOrbitTextOps oldT newT = []) ∧
    (oldT ≠ newT →
      IsLongestCommonPrefixLen oldT newT (commonPrefixLen oldT newT) ∧
      IsLongestCommonSuffixLenFrom oldT newT (commonPrefixLen oldT newT)
        (commonSuffixLen oldT newT (commonPrefixLen oldT newT)) ∧
      commonPrefixLen oldT newT +
        commonSuffixLen oldT newT (commonPrefixLen oldT newT) ≤ oldT.length ∧
      commonPrefixLen oldT newT +
        commonSuffixLen oldT newT (commonPrefixLen oldT newT) ≤ newT.length ∧
      setOrbitTextOps oldT newT =
        (if 0 < oldT.length -
            (commonPrefixLen oldT newT +
              commonSuffixLen oldT newT (commonPrefixLen oldT newT)) then
          [TextOp.delete (commonPrefixLen oldT newT)
            (oldT.length - commonPrefixLen oldT newT -
              commonSuffixLen oldT newT (commonPrefixLen oldT newT))]
        else []) ++
        (if 0 < newT.length -
            (commonPrefixLen oldT newT +
              commonSuffixLen oldT newT (commonPrefixLen oldT newT)) then
          [TextOp.insert (commonPrefixLen oldT newT)
            ((newT.take (newT.length -
              commonSuffixLen oldT newT (commonPrefixLen oldT newT))).drop
                (commonPrefixLen oldT newT))]
        else [])) ∧
    applyTextOps oldT (setOrbitTextOps oldT newT) = newT := by
  refine ⟨fun h => by simp [setOrbitTextOps, h], fun hne => ?_,
    applyTextOps_setOrbitTextOps oldT newT⟩
  have hp1 := commonPrefixLen_le_left oldT newT
  have hp2 := commonPrefixLen_le_right oldT newT
  have hs1 := commonSuffixLen_le_left oldT newT (commonPrefixLen oldT newT)
  have hs2 := commonSuffixLen_le_right oldT newT (commonPrefixLen oldT newT)
  exact ⟨⟨hp1, hp2, take_commonPrefixLen_eq oldT newT, commonPrefixLen_longest oldT newT⟩,
    ⟨hs1, hs2, drop_commonSuffixLen_eq oldT newT _,
      commonSuffixLen_longest oldT newT _⟩,
    by omega, by omega, setOrbitTextOps_shape oldT newT hne⟩

/-- Witness for setOrbitText_minimal_diff at concrete inputs. -/
theorem setOrbitText_minimal_diff_witness :
    setOrbitTextOps (String.data "abc") (String.data "abc") = [] ∧
    IsLongestCommonPrefixLen (String.data "ab") (String.data "ac")
      (commonPrefixLen (String.data "ab") (String.data "ac")) := by
  refine ⟨(setOrbitText_minimal_diff (String.data "abc") (String.data "abc")).1 rfl,
    ((setOrbitText_minimal_diff (String.data "ab") (String.data "ac")).2.1
      (by decide)).1⟩

/-- C2 counterexample: on oldText "Hello World" and newText
"Hello Orbit World" the scans compute prefix length 6 (the trailing space
of "Hello " also matches) and suffix length 5, not 5 and 6; the issued
operations are not a delete of 0 at position 5 followed by an insert of
" Orbit" at position 5, and no insert of " Orbit" at position 5 occurs at
all. -/
theorem setOrbitText_example_cex :
    commonPrefixLen (String.data "Hello World") (String.data "Hello Orbit World") ≠ 5 ∧
    commonSuffixLen (String.data "Hello World") (String.data "Hello Orbit World")
      (commonPrefixLen (String.data "Hello World")
        (String.data "Hello Orbit World")) ≠ 6 ∧
    setOrbitTextOps (String.data "Hello World") (String.data "Hello Orbit World") ≠
      [TextOp.delete 5 0, TextOp.insert 5 (String.data " Orbit")] ∧
    TextOp.insert 5 (String.data " Orbit") ∉
      setOrbitTextOps (String.data "Hello World") (String.data "Hello Orbit World") := by
  decide

/-- C2 amended: diff("Hello World", "Hello Orbit World") computes prefix
length 6 and suffix length 5, issues no delete (the removed middle region
is empty, so the guard suppresses the delete call) and a single insert of
"Orbit " at position 6, and applying it yields "Hello Orbit World";
diff("abc", "abc") yields no operation. -/
theorem setOrbitText_diff_examples :
    commonPrefixLen (String.data "Hello World") (String.data "Hello Orbit World") = 6 ∧
    commonSuffixLen (String.data "Hello World") (String.data "Hello Orbit World") 6 = 5 ∧
    setOrbitTextOps (String.data "Hello World") (String.data "Hello Orbit World") =
      [TextOp.insert 6 (String.data "Orbit ")] ∧
    applyTextOps (String.data "Hello World")
      (setOrbitTextOps (String.data "Hello World") (String.data "Hello Orbit World")) =
      String.data "Hello Orbit World" ∧
    setOrbitTextOps (String.data "abc") (String.data "abc") = [] := by
  decide

/-! ## useOrbitText snapshot and mount effect -/

/-- The getSnapshot callback of useOrbitText: return the current string
of the shared text when it is non-empty, and the initial value
otherwise. -/
def useOrbitTextSnapshot (existing initialValue : List Char) : List Char :=
  if existing.length > 0 then existing else initialValue

/-- The mount effect of useOrbitText: when the shared text is empty and
the initial value is non-empty, insert the initial value at position 0. -/
def useOrbitTextMountEffect (ytext initialValue : List Char) : List Char :=
  if ytext.length = 0 ∧ initialValue.length > 0 then ytextInsert ytext 0 initialValue
  else ytext

/-- C10: with a non-empty initialValue, the snapshot of an empty shared
text is initialValue, the snapshot is never the empty string, the mount
effect populates an empty shared text with initialValue, and even after
setOrbitText replaces the content with the empty string the snapshot is
initialValue. -/
theorem useOrbitText_snapshot_nonempty (initialValue ytext : List Char)
    (h : initialValue ≠ []) :
    useOrbitTextSnapshot [] initialValue = initialValue ∧
    useOrbitTextSnapshot ytext initialValue ≠ [] ∧
    useOrbitTextMountEffect [] initialValue = initialValue ∧
    useOrbitTextSnapshot (applyTextOps ytext (setOrbitTextOps ytext []))
      initialValue = initialValue := by
  refine ⟨by simp [useOrbitTextSnapshot], ?_, ?_, ?_⟩
  · cases ytext with
    | nil => simpa [useOrbitTextSnapshot] using h
    | cons a as => simp [useOrbitTextSnapshot]
  · have hpos : 0 < initialValue.length := List.length_pos.mpr h
    simp [useOrbitTextMountEffect, ytextInsert, hpos]
  · rw [applyTextOps_setOrbitTextOps]
    simp [useOrbitTextSnapshot]

/-- Witness for useOrbitText_snapshot_nonempty at concrete inputs. -/
theorem useOrbitText_snapshot_nonempty_witness :
    useOrbitTextSnapshot [] (String.data "x") = String.data "x" ∧
    useOrbitTextSnapshot (String.data "y") (String.data "x") ≠ [] ∧
    useOrbitTextMountEffect [] (String.data "x") = String.data "x" ∧
    useOrbitTextSnapshot
      (applyTextOps (String.data "y") (setOrbitTextOps (String.data "y") []))
      (String.data "x") = String.data "x" :=
  useOrbitText_snapshot_nonempty (String.data "x") (String.data "y") (by decide)

/-! ## OrbitStore: persistence wiring, init, persist, dispose
(src/core/store.ts)

Yjs binary updates are abstract tokens (Nat); the document state is the
list of updates merged into it; Y.encodeStateAsUpdate is the identity on
that abstract state; storage.save is recorded by appending the blob to a
log of writes. -/

/-- Origin tags that appear on Y.applyUpdate calls in this codebase. -/
inductive StoreOrigin where
  | storageLoad
  | tabSyncSelf (id : Nat)
deriving DecidableEq, Repr

structure OrbitStoreState where
  storageConfigured : Bool
  tabSyncConfigured : Bool
  wsConfigured : Bool
  /-- ydoc.on("update", handleUpdate) wired (done in the constructor when a
  storage adapter is configured). -/
  persistSubscribed : Bool
  initialized : Bool
  doc : List Nat
  docAlive : Bool
  /-- a debounced persist is scheduled (persistTimer set and not yet fired). -/
  timerPending : Bool
  /-- blobs passed to storage.save, in call order. -/
  saves : List (List Nat)
  /-- origins passed to Y.applyUpdate, in call order (none = omitted). -/
  appliedOrigins : List (Option StoreOrigin)
  tabSyncActive : Bool
  wsConnectCalls : Nat
  storageDisposed : Bool
  wsDestroyed : Bool
deriving DecidableEq, Repr

/-- The OrbitStore constructor: wires the update-to-handleUpdate
subscription immediately when a storage adapter is configured; performs
no I/O, no load, no save, no timer. -/
def mkOrbitStore (storage tabSync ws : Bool) : OrbitStoreState :=
  { storageConfigured := storage
    tabSyncConfigured := tabSync
    wsConfigured := ws
    persistSubscribed := storage
    initialized := false
    doc := []
    docAlive := true
    timerPending := false
    saves := []
    appliedOrigins := []
    tabSyncActive := false
    wsConnectCalls := 0
    storageDisposed := false
    wsDestroyed := false }

/-- handleUpdate: clearTimeout on any pending timer, then schedule a new
debounced persist. Net effect: a timer is pending. -/
def handleUpdate (st : OrbitStoreState) : OrbitStoreState :=
  { st with timerPending := true }

/-- A document update event reaches handleUpdate exactly when the
constructor wired the subscription. -/
def notifyUpdate (st : OrbitStoreState) : OrbitStoreState :=
  if st.persistSubscribed then handleUpdate st else st

/-- Y.applyUpdate(ydoc, blob, origin?): merge the blob and fire the
update event. -/
def applyUpdateDoc (st : OrbitStoreState) (blob : List Nat)
    (origin : Option StoreOrigin) : OrbitStoreState :=
  notifyUpdate { st with doc := st.doc ++ blob,
                         appliedOrigins := st.appliedOrigins ++ [origin] }

/-- A local consumer write into the document (map.set, text.insert, ...):
mutates the document and fires the update event. -/
def localWrite (st : OrbitStoreState) (u : Nat) : OrbitStoreState :=
  notifyUpdate { st with doc := st.doc ++ [u] }

/-- The body of OrbitStore.persist: when a storage adapter is configured,
encode the full state and hand it to storage.save; nothing else. -/
def persistRun (st : OrbitStoreState) : OrbitStoreState :=
  if st.storageConfigured then { st with saves := st.saves ++ [st.doc] } else st

/-- The debounce timer firing: the scheduled callback runs persist. -/
def timerFire (st : OrbitStoreState) : OrbitStoreState :=
  if st.timerPending then persistRun { st with timerPending := false } else st

/-- OrbitStore.init, run to completion with the given storage.load
result: early-return when already initialized; otherwise apply the loaded
blob (with no origin argument), activate tab sync, connect the WebSocket
provider, and mark initialized. -/
def initRun (st : OrbitStoreState) (loaded : Option (List Nat)) : OrbitStoreState :=
  if st.initialized then st
  else
    let st1 := if st.storageConfigured then
        match loaded with
        | some blob => applyUpdateDoc st blob none
        | none => st
      else st
    let st2 := if st1.tabSyncConfigured then { st1 with tabSyncActive := true } else st1
    let st3 := if st2.wsConfigured then
        { st2 with wsConnectCalls := st2.wsConnectCalls + 1 } else st2
    { st3 with initialized := true }

/-- The externally visible actions of OrbitStore.dispose, in program
order. -/
inductive DisposeStep where
  | cancelTimer
  | save (blob : List Nat)
  | tabDispose
  | wsDisconnect
  | wsDestroy
  | docDestroy
  | storageDispose
deriving DecidableEq, Repr

/-- The action sequence of OrbitStore.dispose: clear a pending timer,
await persist() (a save of the full current state when storage is
configured), dispose tab sync, disconnect and destroy the WebSocket
provider, destroy the document, dispose the storage adapter. -/
def disposeSteps (st : OrbitStoreState) : List DisposeStep :=
  (if st.timerPending then [DisposeStep.cancelTimer] else []) ++
  (if st.storageConfigured then [DisposeStep.save st.doc] else []) ++
  (if st.tabSyncConfigured then [DisposeStep.tabDispose] else []) ++
  (if st.wsConfigured then [DisposeStep.wsDisconnect, DisposeStep.wsDestroy] else []) ++
  [DisposeStep.docDestroy] ++
  (if st.storageConfigured then [DisposeStep.storageDispose] else [])

def applyDisposeStep (st : OrbitStoreState) : DisposeStep → OrbitStoreState
  | DisposeStep.cancelTimer => { st with timerPending := false }
  | DisposeStep.save blob => { st with saves := st.saves ++ [blob] }
  | DisposeStep.tabDispose => { st with tabSyncActive := false }
  | DisposeStep.wsDisconnect => st
  | DisposeStep.wsDestroy => { st with wsDestroyed := true }
  | DisposeStep.docDestroy => { st with docAlive := false }
  | DisposeStep.storageDispose => { st with storageDisposed := true }

def disposeRun (st : OrbitStoreState) : OrbitStoreState :=
  { (disposeSteps st).foldl applyDisposeStep st with initialized := false }

def isSaveStep : DisposeStep → Bool
  | DisposeStep.save _ => true
  | _ => false

/-- C3 counterexample: in a store with storage configured and a pending
debounced save (after one write), persist() leaves the timer pending, and
the timer later fires and performs a second, timer-driven save: persist()
does not cancel the pending timer. -/
theorem persist_keeps_timer_cex :
    (localWrite (initRun (mkOrbitStore true false false) none) 7).timerPending = true ∧
    (persistRun (localWrite (initRun (mkOrbitStore true false false) none) 7)).timerPending
      = true ∧
    (timerFire (persistRun
      (localWrite (initRun (mkOrbitStore true false false) none) 7))).saves
      = [[7], [7]] := by
  decide

/-- C3 amended: persist() immediately encodes the full current document
state and writes it via the storage adapter, leaving the document
unchanged; it does not cancel a pending debounce timer, so a pending
timer still fires afterwards and performs a second save. -/
theorem persist_immediate_flush (st : OrbitStoreState)
    (h : st.storageConfigured = true) :
    (persistRun st).saves = st.saves ++ [st.doc] ∧
    (persistRun st).timerPending = st.timerPending ∧
    (persistRun st).doc = st.doc ∧
    (st.timerPending = true →
      (timerFire (persistRun st)).saves = st.saves ++ [st.doc, st.doc]) := by
  refine ⟨by simp [persistRun, h], by simp [persistRun, h], by simp [persistRun, h], ?_⟩
  intro ht
  simp [persistRun, timerFire, h, ht]

/-- Witness for persist_immediate_flush at a concrete store. -/
theorem persist_immediate_flush_witness :
    (persistRun (mkOrbitStore true false false)).saves =
      (mkOrbitStore true false false).saves ++ [(mkOrbitStore true false false).doc] :=
  (persist_immediate_flush (mkOrbitStore true false false) rfl).1

/-- C5 counterexample: the persistence subscription is wired in the
constructor, before init runs; when init applies a persisted blob, the
apply carries no origin tag (not storage-load) and does schedule a
redundant debounced persist of the data that was just loaded. -/
theorem init_redundant_persist_cex :
    (mkOrbitStore true true false).persistSubscribed = true ∧
    (initRun (mkOrbitStore true true false) (some [5])).timerPending = true ∧
    (initRun (mkOrbitStore true true false) (some [5])).appliedOrigins = [none] ∧
    (initRun (mkOrbitStore true true false) (some [5])).appliedOrigins ≠
      [some StoreOrigin.storageLoad] := by
  decide

/-- C5 amended: during init with a storage adapter configured, a present
persisted blob is applied to the document with no origin tag, after the
persistence subscription was already wired in the constructor; loading
persisted state therefore does schedule a redundant debounced persist of
the data that was just loaded (though no save has happened yet when init
returns). -/
theorem init_applies_blob_untagged (tab ws : Bool) (blob : List Nat) :
    (mkOrbitStore true tab ws).persistSubscribed = true ∧
    (initRun (mkOrbitStore true tab ws) (some blob)).doc = blob ∧
    (initRun (mkOrbitStore true tab ws) (some blob)).appliedOrigins = [none] ∧
    (initRun (mkOrbitStore true tab ws) (some blob)).timerPending = true ∧
    (initRun (mkOrbitStore true tab ws) (some blob)).saves = [] ∧
    (initRun (mkOrbitStore true tab ws) (some blob)).initialized = true := by
  cases tab <;> cases ws <;>
    simp [mkOrbitStore, initRun, applyUpdateDoc, notifyUpdate, handleUpdate]

/-- C7: with a storage adapter configured (and hence the persistence
subscription wired), a document write followed immediately by dispose()
before the debounce timer fires performs no save at write time, and
dispose() first cancels the pending timer, then performs exactly one save
whose blob is the full current state containing that write, then tears
down tab sync, the network channel, the document and the storage
adapter. -/
theorem dispose_flushes_single_save (st : OrbitStoreState) (u : Nat)
    (h : st.storageConfigured = true) (hsub : st.persistSubscribed = true) :
    (localWrite st u).timerPending = true ∧
    (localWrite st u).saves = st.saves ∧
    disposeSteps (localWrite st u) =
      [DisposeStep.cancelTimer, DisposeStep.save (st.doc ++ [u])] ++
      (if st.tabSyncConfigured then [DisposeStep.tabDispose] else []) ++
      (if st.wsConfigured then [DisposeStep.wsDisconnect, DisposeStep.wsDestroy]
        else []) ++
      [DisposeStep.docDestroy] ++ [DisposeStep.storageDispose] ∧
    (disposeSteps (localWrite st u)).filter isSaveStep =
      [DisposeStep.save (st.doc ++ [u])] ∧
    u ∈ st.doc ++ [u] ∧
    (disposeRun (localWrite st u)).saves = st.saves ++ [st.doc ++ [u]] ∧
    (disposeRun (localWrite st u)).timerPending = false ∧
    (disposeRun (localWrite st u)).docAlive = false ∧
    (st.tabSyncConfigured = true →
      (disposeRun (localWrite st u)).tabSyncActive = false) ∧
    (disposeRun (localWrite st u)).storageDisposed = true := by
  cases hT : st.tabSyncConfigured <;> cases hW : st.wsConfigured <;>
    simp [localWrite, notifyUpdate, handleUpdate, disposeSteps, disposeRun,
      applyDisposeStep, isSaveStep, h, hsub, hT, hW]

/-- Witness for dispose_flushes_single_save at a concrete store. -/
theorem dispose_flushes_single_save_witness :
    (localWrite (mkOrbitStore true true false) 3).timerPending = true :=
  (dispose_flushes_single_save (mkOrbitStore true true false) 3 rfl rfl).1

/-! ## init concurrency (src/core/store.ts, OrbitStore.init)

init is an async method whose only suspension point is the awaited
storage.load; the code before the await (the initialized guard and the
load call) runs synchronously, and the code after it (applying the blob,
activating tab sync, connecting the WebSocket provider, setting
initialized) runs in a later turn. The model below fixes a store
configured with storage, tab sync and a WebSocket URL, and counts the
externally visible effects. -/

inductive InitPhase where
  | awaitingLoad
  | done
deriving DecidableEq, Repr

structure InitWorld where
  initialized : Bool
  loadCalls : Nat
  applyCalls : Nat
  tabInitCalls : Nat
  connectCalls : Nat
deriving DecidableEq, Repr

def initWorld0 : InitWorld :=
  { initialized := false, loadCalls := 0, applyCalls := 0,
    tabInitCalls := 0, connectCalls := 0 }

/-- The synchronous prologue of one init() call: the early return when
already initialized, otherwise the storage.load call, after which the
task suspends at the await. -/
def initProlog (w : InitWorld) : InitWorld × InitPhase :=
  if w.initialized then (w, InitPhase.done)
  else ({ w with loadCalls := w.loadCalls + 1 }, InitPhase.awaitingLoad)

/-- The continuation of one init() call after its load resolves: apply
the blob when present, activate tab sync, initiate the WebSocket connect,
set initialized. -/
def initResume (w : InitWorld) (blobPresent : Bool) : InitWorld :=
  let w1 := if blobPresent then { w with applyCalls := w.applyCalls + 1 } else w
  { w1 with tabInitCalls := w1.tabInitCalls + 1,
            connectCalls := w1.connectCalls + 1,
            initialized := true }

/-- C4 counterexample: two racing init() calls both pass the initialized
guard before either continuation runs, so the storage blob is loaded and
applied twice, tab sync is activated twice and the network connect is
initiated twice — there is no single-in-flight guarantee. -/
theorem init_race_cex :
    (initProlog initWorld0).2 = InitPhase.awaitingLoad ∧
    (initProlog (initProlog initWorld0).1).2 = InitPhase.awaitingLoad ∧
    (initResume (initResume (initProlog (initProlog initWorld0).1).1 true)
      true).loadCalls = 2 ∧
    (initResume (initResume (initProlog (initProlog initWorld0).1).1 true)
      true).applyCalls = 2 ∧
    (initResume (initResume (initProlog (initProlog initWorld0).1).1 true)
      true).tabInitCalls = 2 ∧
    (initResume (initResume (initProlog (initProlog initWorld0).1).1 true)
      true).connectCalls = 2 := by
  decide

/-- C4 amended: init() is sequentially idempotent — every call that
starts after a previous call has completed (initialized is set) is a
no-op that resolves immediately — and a completed call leaves the store
initialized; racing calls, however, are not guarded, as the
counterexample shows. -/
theorem init_sequential_idempotent (w : InitWorld) (b : Bool)
    (h : w.initialized = true) :
    initProlog w = (w, InitPhase.done) ∧ (initResume w b).initialized = true := by
  refine ⟨by simp [initProlog, h], ?_⟩
  cases b <;> simp [initResume]

/-- Witness for init_sequential_idempotent after one completed init. -/
theorem init_sequential_idempotent_witness :
    initProlog (initResume initWorld0 true) = (initResume initWorld0 true, InitPhase.done) :=
  (init_sequential_idempotent (initResume initWorld0 true) true (by decide)).1

/-! ## WebSocket circuit breaker
(src/core/store.ts, setupWebSocketErrorHandlers)

The y-websocket provider is the external Network Sync Channel: it emits
"status" and "connection-error" events and exposes the settable
shouldConnect auto-reconnect flag; per its interface contract the channel
attempts automatic reconnects only while that flag is set. -/

inductive WsEvent where
  | status (s : String)
  | connectionError
deriving DecidableEq, Repr

structure BreakerState where
  websocketFailures : Nat
  shouldConnect : Bool
  disconnectCalls : Nat
  /-- values broadcast to the status listener set, in order. -/
  notified : List String
deriving DecidableEq, Repr

/-- The two event handlers installed by setupWebSocketErrorHandlers: a
status event resets the failure counter when its value is "connected" and
is forwarded to every status listener; a connection-error event
increments the failure counter and, when it has reached
maxWebsocketFailures, clears shouldConnect, calls disconnect and notifies
every status listener with "disconnected". -/
def handleWsEvent (maxFailures : Nat) (st : BreakerState) : WsEvent → BreakerState
  | WsEvent.status s =>
      let st1 := if s = "connected" then { st with websocketFailures := 0 } else st
      { st1 with notified := st1.notified ++ [s] }
  | WsEvent.connectionError =>
      let st1 := { st with websocketFailures := st.websocketFailures + 1 }
      if maxFailures ≤ st1.websocketFailures then
        { st1 with shouldConnect := false,
                   disconnectCalls := st1.disconnectCalls + 1,
                   notified := st1.notified ++ ["disconnected"] }
      else st1

def runWsEvents (maxFailures : Nat) (st : BreakerState) (evs : List WsEvent) :
    BreakerState :=
  evs.foldl (handleWsEvent maxFailures) st

/-- Resolution of the maxFailures option in the constructor:
config.websocketOptions?.maxFailures ?? 3. -/
def resolveMaxFailures (configured : Option Nat) : Nat :=
  configured.getD 3

theorem handleWsEvent_shouldConnect_false (m : Nat) (st : BreakerState)
    (e : WsEvent) (h : st.shouldConnect = false) :
    (handleWsEvent m st e).shouldConnect = false := by
  cases e with
  | status s => simp [handleWsEvent]; split <;> simp [h]
  | connectionError => simp [handleWsEvent]; split <;> simp [h]

theorem runWsEvents_shouldConnect_false (m : Nat) (st : BreakerState)
    (evs : List WsEvent) (h : st.shouldConnect = false) :
    (runWsEvents m st evs).shouldConnect = false := by
  induction evs generalizing st with
  | nil => exact h
  | cons e evs ih =>
    exact ih _ (handleWsEvent_shouldConnect_false m st e h)

/-- C6: every connection-error increments the failure counter; when the
counter reaches maxFailures the auto-reconnect flag is cleared,
disconnect is called and every status listener is notified with
"disconnected"; once the flag is cleared no later event re-sets it, so
the channel (which auto-reconnects only while the flag is set) makes no
further connect attempts in the session; a status event with value
"connected" resets the failure counter to zero; the default maxFailures
is 3. -/
theorem circuit_breaker (m : Nat) (st : BreakerState) (evs : List WsEvent) :
    (handleWsEvent m st WsEvent.connectionError).websocketFailures =
      st.websocketFailures + 1 ∧
    (m ≤ st.websocketFailures + 1 →
      (handleWsEvent m st WsEvent.connectionError).shouldConnect = false ∧
      (handleWsEvent m st WsEvent.connectionError).disconnectCalls =
        st.disconnectCalls + 1 ∧
      (handleWsEvent m st WsEvent.connectionError).notified =
        st.notified ++ ["disconnected"]) ∧
    (st.shouldConnect = false → (runWsEvents m st evs).shouldConnect = false) ∧
    (handleWsEvent m st (WsEvent.status "connected")).websocketFailures = 0 ∧
    resolveMaxFailures none = 3 := by
  refine ⟨?_, ?_, runWsEvents_shouldConnect_false m st evs, ?_, rfl⟩
  · simp [handleWsEvent]; split <;> simp
  · intro h; simp [handleWsEvent, h]
  · simp [handleWsEvent]

/-- Witness for circuit_breaker: the third consecutive connection error
with maxFailures = 3 trips the breaker. -/
theorem circuit_breaker_witness :
    (handleWsEvent 3
      { websocketFailures := 2, shouldConnect := true, disconnectCalls := 0,
        notified := [] } WsEvent.connectionError).shouldConnect = false :=
  ((circuit_breaker 3
    { websocketFailures := 2, shouldConnect := true, disconnectCalls := 0,
      notified := [] } []).2.1 (by decide)).1

/-! ## TabSync (src/sync/tab-sync.ts)

TabSync instances are identified by a numeric identity (the JavaScript
object identity used in the origin comparisons). The BroadcastChannel
transport is external; per its contract (spec: a posted message is
delivered to all other same-device subscribers) the poster never receives
its own message. -/

inductive YOrigin where
  | tabSyncSelf (id : Nat)
  | nullOrigin
  | other (tag : Nat)
deriving DecidableEq, Repr

structure SyncMessage where
  type : String
  storeId : String
  update : List Nat
deriving DecidableEq, Repr

/-- The document-update handler installed by TabSync.init: when the
origin of the update is not this TabSync instance itself, package the
delta with the storeId and publish it on the channel. -/
def tabSyncUpdateHandler (selfId : Nat) (selfStoreId : String) (update : List Nat)
    (origin : YOrigin) : List SyncMessage :=
  if origin ≠ YOrigin.tabSyncSelf selfId then
    [{ type := "update", storeId := selfStoreId, update := update }]
  else []

/-- The channel.onmessage handler of TabSync.init: when the message is an
update for this storeId, apply the contained delta to the document with
this TabSync instance as origin. The result lists the Y.applyUpdate
calls as (payload, origin) pairs. -/
def tabSyncOnMessage (selfId : Nat) (selfStoreId : String) (msg : SyncMessage) :
    List (List Nat × YOrigin) :=
  if msg.type = "update" ∧ msg.storeId = selfStoreId then
    [(msg.update, YOrigin.tabSyncSelf selfId)]
  else []

/-- The messages TabSync republishes as a consequence of the applies
triggered by one incoming bus message. -/
def tabSyncEchoOf (selfId : Nat) (selfStoreId : String) (msg : SyncMessage) :
    List SyncMessage :=
  (tabSyncOnMessage selfId selfStoreId msg).flatMap
    fun ac => tabSyncUpdateHandler selfId selfStoreId ac.1 ac.2

/-- Modelled from the spec: the tab bus transport delivers a published
message to all other same-device subscribers on the topic, never back to
the posting instance (BroadcastChannel is external to the repository). -/
def busDeliver (posterId : Nat) (subscriberIds : List Nat) (msg : SyncMessage) :
    List (Nat × SyncMessage) :=
  (subscriberIds.filter fun j => j != posterId).map fun j => (j, msg)

/-- C8: every apply triggered by a bus message carries this TabSync
instance as origin; the update handler republishes none of those applies
(a delta received from the channel is never re-sent on it); an update
whose origin is this instance is never published; and the bus never
delivers an instance's own message back to it, so a store's own write is
never re-applied to its own document through its own tab-broadcast
loop. -/
theorem tabSync_no_echo (selfId : Nat) (selfStoreId : String) (msg : SyncMessage)
    (subs : List Nat) (u : List Nat) :
    ((tabSyncOnMessage selfId selfStoreId msg).all
      fun ac => ac.2 == YOrigin.tabSyncSelf selfId) = true ∧
    tabSyncEchoOf selfId selfStoreId msg = [] ∧
    tabSyncUpdateHandler selfId selfStoreId u (YOrigin.tabSyncSelf selfId) = [] ∧
    ((busDeliver selfId subs msg).all fun d => d.1 != selfId) = true := by
  refine ⟨?_, ?_, by simp [tabSyncUpdateHandler], ?_⟩
  · simp only [tabSyncOnMessage]
    split <;> simp
  · simp only [tabSyncEchoOf, tabSyncOnMessage]
    split <;> simp [tabSyncUpdateHandler]
  · simp [busDeliver, List.all_eq_true, List.mem_filter]
    intro a b x hx hne h1 h2
    subst h1; subst h2; exact hne

/-! ## Connection status (src/react/collaboration/useOrbitStatus.ts and
OrbitStore.getWebSocketProvider) -/

structure WsProviderView where
  wsconnected : Bool
  wsconnecting : Bool
deriving DecidableEq, Repr

/-- The getSnapshot of useOrbitStatus: "disconnected" when the store has
no WebSocket provider; otherwise "connected" when wsconnected,
"connecting" when wsconnecting, else "disconnected". -/
def getStatusSnapshot : Option WsProviderView → String
  | none => "disconnected"
  | some p =>
      if p.wsconnected then "connected"
      else if p.wsconnecting then "connecting" else "disconnected"

/-- OrbitStore.getWebSocketProvider: the provider exists exactly when a
websocketUrl was configured. -/
def storeWebSocketProvider (wsConfigured : Bool) (p : WsProviderView) :
    Option WsProviderView :=
  if wsConfigured then some p else none

/-- C9: the consumer-visible status is always one of connecting,
connected, disconnected; and a store constructed without a WebSocket
channel always reports "disconnected". -/
theorem status_always_wellformed (o : Option WsProviderView) (p : WsProviderView) :
    getStatusSnapshot o ∈ ["connecting", "connected", "disconnected"] ∧
    getStatusSnapshot (storeWebSocketProvider false p) = "disconnected" := by
  refine ⟨?_, rfl⟩
  cases o with
  | none => simp [getStatusSnapshot]
  | some q =>
      rcases q with ⟨c, g⟩
      cases c <;> cases g <;> simp [getStatusSnapshot]

end ReactOrbit
